/-
Verification of the secure_iot_system repository: a shallow embedding of
the data-processing pipeline (processor.py, detector.py, factory.py,
sensor.py, data_engine.py, main.py) with theorems settling the spec's
claims.  Python floats are modelled as exact reals.
-/

import Mathlib

/-! ## processor.py : DataProcessor -/

/-- Models `numpy.ndarray.mean`: the arithmetic mean `sum / n`. -/
noncomputable def npMean (values : List ℝ) : ℝ :=
  values.sum / values.length

/-- Models the population variance `mean((x - mean)^2)` (ddof = 0), the
quantity under the square root in `numpy.ndarray.std`. -/
noncomputable def npVar (values : List ℝ) : ℝ :=
  ((values.map fun x => (x - npMean values) ^ 2).sum) / values.length

/-- Models `numpy.ndarray.std`: population standard deviation (ddof = 0),
`sqrt(mean((x - mean)^2))`. -/
noncomputable def npStd (values : List ℝ) : ℝ :=
  Real.sqrt (npVar values)

/-- State of `DataProcessor` (processor.py): a capacity `batch_size`
and the buffered readings `_buffer`. -/
structure DataProcessor where
  batch_size : ℕ
  buffer : List ℝ

/-- `DataProcessor.add_reading` (processor.py lines 83-91): appends
unconditionally and returns `len(self._buffer) >= self.batch_size`.
Result: (state after the call, returned bool). -/
def DataProcessor.add_reading (p : DataProcessor) (value : ℝ) :
    DataProcessor × Bool :=
  let buffer := p.buffer ++ [value]
  (⟨p.batch_size, buffer⟩, decide (buffer.length ≥ p.batch_size))

/-- `DataProcessor.process_batch` (processor.py lines 113-133): raises
`ValueError` (modelled `none`) when the buffer is empty, otherwise
returns `(data.mean(), data.std())` and clears the buffer.  The
wall-clock `elapsed` component added by `profile_execution` is not
modelled. -/
noncomputable def DataProcessor.process_batch (p : DataProcessor) :
    Option ((ℝ × ℝ) × DataProcessor) :=
  match p.buffer with
  | [] => none
  | _ => some ((npMean p.buffer, npStd p.buffer), ⟨p.batch_size, []⟩)

/-- `DataProcessor.slow_python_stats` (processor.py lines 95-109): the
loop-based reference; raises `ValueError` (modelled `none`) on `[]`,
otherwise `mean = sum/len`, `variance = sum((x-mean)**2)/len`, returns
`(mean, variance ** 0.5)` (real exponentiation models `** 0.5`). -/
noncomputable def DataProcessor.slow_python_stats (values : List ℝ) :
    Option (ℝ × ℝ) :=
  match values with
  | [] => none
  | _ =>
    let mean : ℝ := values.sum / values.length
    let variance : ℝ := ((values.map fun x => (x - mean) ^ 2).sum) / values.length
    some (mean, variance ^ (0.5 : ℝ))

/-- The results of a sequence of `add_reading` calls (no processing in
between): the list of returned booleans, in call order. -/
def addResults (p : DataProcessor) : List ℝ → List Bool
  | [] => []
  | v :: vs =>
    let r := p.add_reading v
    r.2 :: addResults r.1 vs

/-- One caller-visible operation on a `DataProcessor`. -/
inductive ProcOp where
  | add (v : ℝ)
  | process

/-- Run one operation: `add` performs `add_reading`; `process` performs
`process_batch` (a raised `ValueError` on an empty buffer leaves the
state unchanged). -/
noncomputable def ProcOp.step (p : DataProcessor) : ProcOp → DataProcessor
  | .add v => (p.add_reading v).1
  | .process =>
    match p.process_batch with
    | none => p
    | some (_, q) => q

/-- State reached from `p` by a sequence of operations. -/
noncomputable def runOps (p : DataProcessor) : List ProcOp → DataProcessor
  | [] => p
  | op :: ops => runOps (ProcOp.step p op) ops

/-- Drain helper: the state left by `process_batch` (unchanged when the
buffer was empty). -/
noncomputable def DataProcessor.drain (p : DataProcessor) : DataProcessor :=
  match p.process_batch with
  | none => p
  | some (_, q) => q

/-- The disciplined caller protocol of the spec's BatchBuffer contract
("the caller is responsible for triggering processing when true"): each
value is added with `add_reading` and, whenever the returned full
signal is true, `process_batch` is invoked at once.  Note that main.py
itself is looser: its loop (main.py lines 84-90) assigns `batch_ready`
inside the inner loop over a snapshot's values and tests it only after
the whole snapshot, i.e. it consults only the last add's result, so it
does not follow this discipline.  Returns every intermediate state
(after each add and after each drain), in order. -/
noncomputable def feedTrace (p : DataProcessor) : List ℝ → List DataProcessor
  | [] => []
  | v :: vs =>
    let r := p.add_reading v
    let q := if r.2 then r.1.drain else r.1
    r.1 :: q :: feedTrace q vs

/-! ## detector.py : strategies -/

/-- `ZScoreStrategy` (detector.py): holds the z-score threshold. -/
structure ZScoreStrategy where
  threshold : ℝ

/-- `ZScoreStrategy.detect` (detector.py lines 34-46) as a proposition:
the boolean result is true iff the input is non-empty, its population
standard deviation is non-zero, and some value's z-score exceeds the
threshold (the code returns `False` early on an empty array and on
`std == 0`). -/
def ZScoreStrategy.detect (s : ZScoreStrategy) (data : List ℝ) : Prop :=
  data ≠ [] ∧ npStd data ≠ 0 ∧
    ∃ x ∈ data, |x - npMean data| / npStd data > s.threshold

/-- `ThresholdStrategy` (detector.py): fixed lower/upper bounds. -/
structure ThresholdStrategy where
  min_value : ℝ
  max_value : ℝ

/-- `ThresholdStrategy.detect` (detector.py lines 58-66) as a
proposition: true iff the input is non-empty and some value lies
strictly below `min_value` or strictly above `max_value`. -/
def ThresholdStrategy.detect (s : ThresholdStrategy) (data : List ℝ) : Prop :=
  data ≠ [] ∧ ∃ v ∈ data, v < s.min_value ∨ v > s.max_value

/-! ## sensor.py / registry.py / factory.py -/

/-- The concrete sensor types registered by `SensorRegistryMeta`
(registry.py): each concrete subclass of `Sensor` with a `SENSOR_NAME`. -/
inductive SensorType where
  | temperature
  | pressure
  | vibration
deriving DecidableEq, Repr

/-- State of a `Sensor` instance (sensor.py): its display name, its
concrete type, and the `_calibrated` flag.  The `_stream` generator is
modelled externally (see `NextOutcome`). -/
structure Sensor where
  name : String
  stype : SensorType
  calibrated : Bool
deriving DecidableEq, Repr

/-- The constructor of each registered class: `TempSensor()`,
`PressureSensor()`, `VibrationSensor()` call `Sensor.__init__` with the
display name and `_calibrated = False` (sensor.py lines 20-29). -/
def SensorType.construct : SensorType → Sensor
  | .temperature => ⟨"Temperature", .temperature, false⟩
  | .pressure => ⟨"Pressure", .pressure, false⟩
  | .vibration => ⟨"Vibration", .vibration, false⟩

/-- `sensor.calibrate()`: sets `_calibrated = True`. -/
def Sensor.calibrate (s : Sensor) : Sensor :=
  { s with calibrated := true }

/-- The registry built by `SensorRegistryMeta.__new__` (registry.py):
keys are `SENSOR_NAME.lower()` of the concrete classes, in definition
order (sensor.py defines TempSensor, PressureSensor, VibrationSensor). -/
def sensorRegistry : List (String × SensorType) :=
  [("temperature", .temperature), ("pressure", .pressure),
   ("vibration", .vibration)]

/-- Errors raised by `SensorFactory.create_sensor` (factory.py): the
two `ValueError` variants. -/
inductive FactoryError where
  | invalidInput
  | unknownType (requested : String) (available : List String)
deriving DecidableEq, Repr

/-- Python `str.strip()` on the string's character sequence: drop
leading and trailing whitespace. -/
def pyStrip (s : List Char) : List Char :=
  ((s.dropWhile Char.isWhitespace).reverse.dropWhile Char.isWhitespace).reverse

/-- Python `str.lower()` on the string's character sequence. -/
def pyLower (s : List Char) : List Char :=
  s.map Char.toLower

/-- `SensorFactory.create_sensor` (factory.py lines 34-47): rejects an
empty or all-whitespace argument (`not sensor_type or not
sensor_type.strip()`), normalizes with `strip().lower()`, looks the
normalized name up in the registry, and on success calls the registered
constructor (so the result is uncalibrated).  The `UnknownType` error
carries the requested name as given and the available registry keys. -/
def SensorFactory.create_sensor (sensor_type : String) :
    Except FactoryError Sensor :=
  if pyStrip sensor_type.data = [] then .error .invalidInput
  else
    let normalized := pyLower (pyStrip sensor_type.data)
    match sensorRegistry.find? (fun p => p.1.data = normalized) with
    | some p => .ok p.2.construct
    | none =>
      .error (.unknownType sensor_type (sensorRegistry.map Prod.fst))

/-- What `next(self._stream)` produces inside `Sensor._safe_read`
(sensor.py lines 69-91): a numeric value, a malformed (None or
non-numeric) value, or a `StopIteration` (stream exhausted). -/
inductive NextOutcome where
  | ok (x : ℝ)
  | invalid
  | stop

/-- `Sensor._safe_read` (sensor.py lines 69-91).  Result is the returned
float paired with whether a fault was reported to the logging
collaborator (the `print` in the catch-all handler): a numeric value is
returned as-is; a malformed value raises `ValueError`, caught by the
catch-all which prints and returns 0.0; `StopIteration` is caught by its
own handler which returns 0.0 without printing. -/
def Sensor.safe_read : NextOutcome → ℝ × Bool
  | .ok x => (x, false)
  | .invalid => (0, true)
  | .stop => (0, false)

/-- The error raised by `Sensor._ensure_calibrated` (sensor.py lines
46-57): `RuntimeError` on an uncalibrated sensor. -/
inductive SensorError where
  | notCalibrated
deriving DecidableEq, Repr

/-- `read_data` of the concrete sensors (sensor.py, e.g. TempSensor
lines 102-105, identical for Pressure and Vibration): first
`_ensure_calibrated` (raises when uncalibrated), then a simulated
latency sleep, then `_safe_read`.  The stream outcome is passed in. -/
def Sensor.read_data (s : Sensor) (o : NextOutcome) :
    Except SensorError (ℝ × Bool) :=
  if s.calibrated then .ok (Sensor.safe_read o) else .error .notCalibrated

/-! ## data_engine.py / main.py -/

/-- One insertion into a Python dict, modelled as an association list in
insertion order: an existing key keeps its position and gets the new
value, a new key is appended. -/
def dictInsert (d : List (String × ℝ)) (k : String) (v : ℝ) :
    List (String × ℝ) :=
  if d.any (fun p => p.1 = k) then
    d.map (fun p => if p.1 = k then (p.1, v) else p)
  else d ++ [(k, v)]

/-- A Python dict built from a list of key/value pairs in order (the
semantics of the dict comprehension in `collect_once`). -/
def dictOfPairs (pairs : List (String × ℝ)) : List (String × ℝ) :=
  pairs.foldl (fun d p => dictInsert d p.1 p.2) []

/-- `read_sensor` (data_engine.py lines 27-33): awaits a random latency
then returns `next(stream)` — the sensor argument is never consulted (in
particular its calibration flag is not checked) and no error can be
raised by the body.  `v` is the value the shared stream yields to this
task when it resumes. -/
def read_sensor (sensor : Sensor) (v : ℝ) : ℝ := v

/-- `collect_once` (data_engine.py lines 36-52): launches one
`read_sensor` task per sensor over a single shared stream and gathers.
`stream n` is the n-th value the shared generator yields; `rank i` is
the position in wake-up (completion) order at which task `i` resumes and
pulls from the stream — `asyncio.gather` still delivers results in task
order.  The snapshot is the dict keyed by `sensor.name` in source-list
order. -/
def collect_once (sensors : List Sensor) (stream : ℕ → ℝ) (rank : ℕ → ℕ) :
    List (String × ℝ) :=
  let results := (List.range sensors.length).map fun i =>
    read_sensor (sensors.getD i ⟨"", .temperature, false⟩) (stream (rank i))
  dictOfPairs ((sensors.zip results).map fun p => (p.1.name, p.2))

/-- `build_sensors` (main.py lines 29-43): cycles through the type names
temperature, pressure, vibration, creates each sensor through the
factory and calibrates it.  A factory error would propagate (none occurs
for these names). -/
def build_sensors (num_sensors : ℕ) : Except FactoryError (List Sensor) :=
  (List.range num_sensors).mapM fun i =>
    (SensorFactory.create_sensor
        (["temperature", "pressure", "vibration"].getD (i % 3) "")).map
      Sensor.calibrate

/-! ## Theorems -/

lemma addResults_getD (vs : List ℝ) :
    ∀ (p : DataProcessor) (i : ℕ), i < vs.length →
      (addResults p vs).getD i false =
        decide (p.buffer.length + (i + 1) ≥ p.batch_size) := by
  induction vs with
  | nil => intro p i h; simp at h
  | cons v vs ih =>
    intro p i h
    cases i with
    | zero =>
      simp [addResults, DataProcessor.add_reading]
    | succ n =>
      have hn : n < vs.length := by simpa using h
      simp only [addResults, List.getD_cons_succ]
      rw [ih _ n hn]
      simp [DataProcessor.add_reading]
      omega

/-- C1 (counterexample): the claimed equivalence "add_reading returns
true iff the post-append buffer length equals the capacity" fails.
With capacity 1, starting from a fresh buffer, the second of two
consecutive `add_reading` calls (no processing in between — the buffer
does not self-drain) returns true while the post-append length is 2. -/
theorem add_reading_eq_capacity_cex :
    addResults ⟨1, []⟩ [0, 0] = [true, true] ∧
    ((((⟨1, []⟩ : DataProcessor).add_reading 0).1).add_reading 0).1.buffer.length = 2 ∧
    ((((⟨1, []⟩ : DataProcessor).add_reading 0).1).add_reading 0).1.buffer.length ≠ 1 := by
  refine ⟨rfl, rfl, by simp [DataProcessor.add_reading]⟩

/-- C1 (amended): `add_reading` returns true iff the post-append buffer
length is at least (not exactly equal to) the capacity; consequently,
from a fresh buffer with capacity C > 0, adding exactly C readings
yields true exactly once, on the C-th call, and never before. -/
theorem add_reading_full_iff_ge :
    (∀ (p : DataProcessor) (v : ℝ),
       ((p.add_reading v).2 = true ↔
         (p.add_reading v).1.buffer.length ≥ p.batch_size)) ∧
    ∀ C : ℕ, 0 < C → ∀ vs : List ℝ, vs.length = C → ∀ i : ℕ, i < C →
      ((addResults (⟨C, []⟩ : DataProcessor) vs).getD i false = true ↔
        i + 1 = C) := by
  constructor
  · intro p v
    simp [DataProcessor.add_reading]
  · intro C hC vs hlen i hi
    rw [addResults_getD vs _ i (by omega)]
    simp only [List.length_nil, decide_eq_true_eq]
    omega

/-- C1 witness: with capacity 3 and three readings, the results of the
three calls are false, false, true. -/
theorem add_reading_full_iff_ge_witness :
    ((addResults (⟨3, []⟩ : DataProcessor) [7, 8, 9]).getD 0 false = true ↔
      0 + 1 = 3) ∧
    ((addResults (⟨3, []⟩ : DataProcessor) [7, 8, 9]).getD 2 false = true ↔
      2 + 1 = 3) :=
  ⟨add_reading_full_iff_ge.2 3 (by norm_num) [7, 8, 9] (by simp) 0 (by norm_num),
   add_reading_full_iff_ge.2 3 (by norm_num) [7, 8, 9] (by simp) 2 (by norm_num)⟩

/-- C3 (counterexample): the invariant `0 <= len(buffer) <= capacity`
does not hold on all states reachable by arbitrary call sequences:
with capacity 1, two `add_reading` calls from a fresh buffer (a legal
sequence — the append is unconditional) reach a state with length 2. -/
theorem buffer_invariant_cex :
    (runOps ⟨1, []⟩ [ProcOp.add 0, ProcOp.add 0]).buffer.length = 2 ∧
    ¬ (runOps ⟨1, []⟩ [ProcOp.add 0, ProcOp.add 0]).buffer.length ≤ 1 := by
  constructor
  · rfl
  · simp [runOps, ProcOp.step, DataProcessor.add_reading]

lemma drain_of_nonempty (p : DataProcessor) (h : p.buffer ≠ []) :
    p.drain = ⟨p.batch_size, []⟩ := by
  unfold DataProcessor.drain DataProcessor.process_batch
  cases hb : p.buffer with
  | nil => exact absurd hb h
  | cons x xs => simp

lemma feedTrace_length_le (C : ℕ) (hC : 0 < C) :
    ∀ (vs : List ℝ) (p : DataProcessor), p.batch_size = C →
      p.buffer.length < C →
      ∀ s ∈ feedTrace p vs, s.buffer.length ≤ C := by
  intro vs
  induction vs with
  | nil => intro p _ _ s hs; simp [feedTrace] at hs
  | cons v vs ih =>
    intro p hsize hlen s hs
    have hadd : ((p.add_reading v).1).buffer.length = p.buffer.length + 1 := by
      simp [DataProcessor.add_reading]
    have hadd_le : ((p.add_reading v).1).buffer.length ≤ C := by omega
    have hq : ∀ q : DataProcessor,
        q = (if (p.add_reading v).2 then ((p.add_reading v).1).drain
             else (p.add_reading v).1) →
        q.batch_size = C ∧ q.buffer.length < C ∨
          (q.batch_size = C ∧ q.buffer.length = 0) := by
      intro q hqdef
      by_cases hfull : (p.add_reading v).2 = true
      · right
        have hne : ((p.add_reading v).1).buffer ≠ [] := by
          simp [DataProcessor.add_reading]
        rw [hqdef, if_pos hfull, drain_of_nonempty _ hne]
        simp [DataProcessor.add_reading, hsize]
      · left
        rw [hqdef, if_neg hfull]
        constructor
        · simp [DataProcessor.add_reading, hsize]
        · have : ¬ ((p.add_reading v).1).buffer.length ≥ p.batch_size := by
            simpa [DataProcessor.add_reading] using hfull
          omega
    simp only [feedTrace, List.mem_cons] at hs
    rcases hs with hs | hs | hs
    · rw [hs]; exact hadd_le
    · rcases hq _ rfl with ⟨_, hlt⟩ | ⟨_, hzero⟩ <;> rw [hs] <;> omega
    · rcases hq _ rfl with ⟨hsz, hlt⟩ | ⟨hsz, hzero⟩
      · exact ih _ hsz hlt s hs
      · exact ih _ hsz (by omega) s hs

/-- C3 (amended): an `add_reading` call from a state strictly below
capacity does not grow the buffer past capacity, and under the
disciplined caller protocol of the spec's BatchBuffer contract —
`process_batch` is invoked immediately whenever `add_reading` returns
true — every state reachable from a fresh buffer satisfies
`0 <= len(buffer) <= capacity`.  (By `buffer_invariant_cex`, the
invariant fails for unrestricted call sequences, since `add_reading`
appends unconditionally; main.py's own loop is such an unrestricted
sequence — it tests the full signal only once per snapshot, after all
of the snapshot's values were added — so the invariant is a property of
the disciplined protocol, not of main.py.) -/
theorem buffer_invariant_disciplined :
    (∀ (p : DataProcessor) (v : ℝ), p.buffer.length < p.batch_size →
       ((p.add_reading v).1).buffer.length ≤ p.batch_size) ∧
    ∀ C : ℕ, 0 < C → ∀ vs : List ℝ, ∀ s ∈ feedTrace ⟨C, []⟩ vs,
      0 ≤ s.buffer.length ∧ s.buffer.length ≤ C := by
  constructor
  · intro p v h
    simp only [DataProcessor.add_reading, List.length_append,
      List.length_cons, List.length_nil]
    omega
  · intro C hC vs s hs
    exact ⟨Nat.zero_le _,
      feedTrace_length_le C hC vs ⟨C, []⟩ rfl (by simpa using hC) s hs⟩

/-- C3 witness: with capacity 2 and the feed [1, 2, 3], the first
intermediate state has buffer [1], within capacity. -/
theorem buffer_invariant_disciplined_witness :
    0 ≤ (⟨2, [1]⟩ : DataProcessor).buffer.length ∧
    (⟨2, [1]⟩ : DataProcessor).buffer.length ≤ 2 :=
  buffer_invariant_disciplined.2 2 (by norm_num) [1, 2, 3] ⟨2, [1]⟩
    (by simp [feedTrace, DataProcessor.add_reading])

lemma process_batch_nonempty (p : DataProcessor) (h : p.buffer ≠ []) :
    p.process_batch =
      some ((npMean p.buffer, npStd p.buffer), ⟨p.batch_size, []⟩) := by
  unfold DataProcessor.process_batch
  cases hb : p.buffer with
  | nil => exact absurd hb h
  | cons x xs => rfl

lemma npMean_example : npMean [0, 1, 2, 3, 4] = 2 := by
  simp [npMean]
  norm_num

lemma npVar_example : npVar [0, 1, 2, 3, 4] = 2 := by
  simp [npVar, npMean_example]
  norm_num

/-- C2: `process_batch` fails (raises ValueError, modelled `none`) iff
the buffer is empty; on a non-empty buffer it returns the arithmetic
mean and the population standard deviation (ddof = 0,
`sqrt(mean((x - mean)^2))`) of the buffered values and clears the
buffer, so an immediately following call fails; on buffer
`[0, 1, 2, 3, 4]` the result is mean 2 and stddev `Real.sqrt 2`. -/
theorem process_batch_spec :
    (∀ p : DataProcessor, p.process_batch = none ↔ p.buffer = []) ∧
    (∀ (p : DataProcessor) (stats : ℝ × ℝ) (q : DataProcessor),
       p.process_batch = some (stats, q) →
         stats.1 = p.buffer.sum / p.buffer.length ∧
         stats.2 = Real.sqrt
           (((p.buffer.map fun x =>
               (x - p.buffer.sum / p.buffer.length) ^ 2).sum) /
             p.buffer.length) ∧
         q.buffer = [] ∧ q.process_batch = none) ∧
    ∀ C : ℕ, (⟨C, [0, 1, 2, 3, 4]⟩ : DataProcessor).process_batch =
      some ((2, Real.sqrt 2), ⟨C, []⟩) := by
  refine ⟨?_, ?_, ?_⟩
  · intro p
    cases hb : p.buffer with
    | nil => simp [DataProcessor.process_batch, hb]
    | cons x xs => simp [DataProcessor.process_batch, hb]
  · intro p stats q h
    by_cases hb : p.buffer = []
    · exact absurd h (by simp [DataProcessor.process_batch, hb])
    · rw [process_batch_nonempty p hb] at h
      have h' := Option.some.inj h
      have h1 : stats = (npMean p.buffer, npStd p.buffer) :=
        (Prod.ext_iff.mp h').1.symm
      have h2 : q = ⟨p.batch_size, []⟩ := (Prod.ext_iff.mp h').2.symm
      subst h1
      subst h2
      refine ⟨rfl, ?_, rfl, by simp [DataProcessor.process_batch]⟩
      simp [npStd, npVar, npMean]
  · intro C
    simp [DataProcessor.process_batch, npStd, npVar_example, npMean_example]

/-- C2 witness: an immediately following `process_batch` on the cleared
buffer fails; obtained by applying the spec at buffer [0, 1, 2, 3, 4]. -/
theorem process_batch_spec_witness :
    (⟨7, []⟩ : DataProcessor).process_batch = none :=
  (process_batch_spec.2.1 ⟨7, [0, 1, 2, 3, 4]⟩ (2, Real.sqrt 2) ⟨7, []⟩
    (process_batch_spec.2.2 7)).2.2.2

/-- C10: for every non-empty value list, the loop-based
`slow_python_stats` returns exactly the statistics pair that the
NumPy-based `process_batch` computes over a buffer holding the same
values (exact real arithmetic: `variance ** 0.5` equals
`sqrt(variance)`). -/
theorem slow_python_stats_refines :
    ∀ values : List ℝ, values ≠ [] → ∀ C : ℕ,
      ∃ stats : ℝ × ℝ,
        DataProcessor.slow_python_stats values = some stats ∧
        (⟨C, values⟩ : DataProcessor).process_batch =
          some (stats, ⟨C, []⟩) := by
  intro values hv C
  refine ⟨(npMean values, npStd values), ?_, process_batch_nonempty _ hv⟩
  cases values with
  | nil => exact absurd rfl hv
  | cons x xs =>
    simp only [DataProcessor.slow_python_stats, Option.some.injEq]
    refine Prod.ext_iff.mpr ⟨rfl, ?_⟩
    show npVar (x :: xs) ^ (0.5 : ℝ) = npStd (x :: xs)
    rw [npStd, Real.sqrt_eq_rpow]
    norm_num

/-- C10 witness: the two implementations agree on the buffer [3]. -/
theorem slow_python_stats_refines_witness :
    ∃ stats : ℝ × ℝ,
      DataProcessor.slow_python_stats [3] = some stats ∧
      (⟨9, [3]⟩ : DataProcessor).process_batch = some (stats, ⟨9, []⟩) :=
  slow_python_stats_refines [3] (by simp) 9

lemma npMean_outlier : npMean [1, 2, 3, 100] = 53 / 2 := by
  simp [npMean]
  norm_num

lemma npVar_outlier : npVar [1, 2, 3, 100] = 7205 / 4 := by
  simp [npVar, npMean_outlier]
  norm_num

/-- C6: `ZScoreStrategy.detect` reports no anomaly on empty input and
on any input of zero population standard deviation (regardless of
threshold), and otherwise reports an anomaly iff some element's z-score
`|x - mean| / std` strictly exceeds the threshold; with threshold 1 it
reports an anomaly on [1, 2, 3, 100] and none on [5, 5, 5, 5]. -/
theorem zscore_detect_spec :
    (∀ s : ZScoreStrategy, ¬ s.detect []) ∧
    (∀ (s : ZScoreStrategy) (data : List ℝ),
       npStd data = 0 → ¬ s.detect data) ∧
    (∀ (s : ZScoreStrategy) (data : List ℝ), data ≠ [] → npStd data ≠ 0 →
       (s.detect data ↔
         ∃ x ∈ data, |x - npMean data| / npStd data > s.threshold)) ∧
    ZScoreStrategy.detect ⟨1⟩ [1, 2, 3, 100] ∧
    (∀ s : ZScoreStrategy, ¬ s.detect [5, 5, 5, 5]) := by
  refine ⟨?_, ?_, ?_, ?_, ?_⟩
  · intro s h
    exact h.1 rfl
  · intro s data h hdet
    exact hdet.2.1 h
  · intro s data hne hstd
    exact ⟨fun h => h.2.2, fun h => ⟨hne, hstd, h⟩⟩
  · have hvar : (0 : ℝ) < 7205 / 4 := by norm_num
    have hstd : npStd [1, 2, 3, 100] = Real.sqrt (7205 / 4) := by
      rw [npStd, npVar_outlier]
    refine ⟨by simp, ?_, ⟨100, by simp, ?_⟩⟩
    · rw [hstd]
      exact ne_of_gt (Real.sqrt_pos.mpr hvar)
    · rw [npMean_outlier, hstd]
      rw [show (100 : ℝ) - 53 / 2 = 147 / 2 by norm_num,
        abs_of_pos (by norm_num)]
      rw [gt_iff_lt, one_lt_div (Real.sqrt_pos.mpr hvar)]
      exact (Real.sqrt_lt' (by norm_num)).mpr (by norm_num)
  · intro s hdet
    refine hdet.2.1 ?_
    have : npVar [5, 5, 5, 5] = 0 := by
      simp [npVar, npMean]
      norm_num
    rw [npStd, this, Real.sqrt_zero]

/-- C6 witness: a constant batch is never anomalous; applied with
threshold 2 to the constant batch [9, 9]. -/
theorem zscore_detect_spec_witness :
    ¬ ZScoreStrategy.detect ⟨2⟩ [9, 9] :=
  zscore_detect_spec.2.1 ⟨2⟩ [9, 9]
    (by norm_num [npStd, npVar, npMean])

/-- C7: `ThresholdStrategy.detect` reports no anomaly on empty input
and otherwise reports an anomaly iff some value is strictly below the
lower bound or strictly above the upper bound (values equal to a bound
are not anomalous); with bounds (0, 50) it reports an anomaly on
[10, 20, 30, 60], none on [10, 20, 30], and none on [0, 50]. -/
theorem threshold_detect_spec :
    (∀ s : ThresholdStrategy, ¬ s.detect []) ∧
    (∀ (s : ThresholdStrategy) (data : List ℝ), data ≠ [] →
       (s.detect data ↔ ∃ v ∈ data, v < s.min_value ∨ v > s.max_value)) ∧
    ThresholdStrategy.detect ⟨0, 50⟩ [10, 20, 30, 60] ∧
    ¬ ThresholdStrategy.detect ⟨0, 50⟩ [10, 20, 30] ∧
    ¬ ThresholdStrategy.detect ⟨0, 50⟩ [0, 50] := by
  refine ⟨?_, ?_, ?_, ?_, ?_⟩
  · intro s h
    exact h.1 rfl
  · intro s data hne
    exact ⟨fun h => h.2, fun h => ⟨hne, h⟩⟩
  · exact ⟨by simp, 60, by simp, Or.inr (by norm_num)⟩
  · norm_num [ThresholdStrategy.detect]
  · norm_num [ThresholdStrategy.detect]

/-- C7 witness: the characterization applied to the batch [60] with
bounds (0, 50). -/
theorem threshold_detect_spec_witness :
    ThresholdStrategy.detect ⟨0, 50⟩ [60] ↔
      ∃ v ∈ ([60] : List ℝ), v < (0 : ℝ) ∨ v > (50 : ℝ) :=
  threshold_detect_spec.2.1 ⟨0, 50⟩ [60] (by simp)

lemma construct_uncalibrated (t : SensorType) :
    t.construct.calibrated = false := by
  cases t <;> rfl

/-- C8: `create_sensor` normalizes its argument by stripping whitespace
and lower-casing, so "TEMPERATURE" and " temperature " are equivalent
to "temperature" (which yields an uncalibrated TempSensor); an empty or
all-whitespace name fails with InvalidInput; a normalized name not in
the registry fails with UnknownType listing the available types; every
successful creation returns an uncalibrated sensor. -/
theorem create_sensor_spec :
    SensorFactory.create_sensor "TEMPERATURE" =
      SensorFactory.create_sensor "temperature" ∧
    SensorFactory.create_sensor " temperature " =
      SensorFactory.create_sensor "temperature" ∧
    SensorFactory.create_sensor "temperature" =
      .ok ⟨"Temperature", .temperature, false⟩ ∧
    (∀ s : String, pyStrip s.data = [] →
       SensorFactory.create_sensor s = .error .invalidInput) ∧
    (∀ s : String, pyStrip s.data ≠ [] →
       pyLower (pyStrip s.data) ∉
         sensorRegistry.map (fun p => p.1.data) →
       SensorFactory.create_sensor s =
         .error (.unknownType s ["temperature", "pressure", "vibration"])) ∧
    SensorFactory.create_sensor "unknown" =
      .error (.unknownType "unknown"
        ["temperature", "pressure", "vibration"]) ∧
    (∀ (s : String) (sens : Sensor),
       SensorFactory.create_sensor s = .ok sens →
         sens.calibrated = false) := by
  refine ⟨by rfl, by rfl, by rfl, ?_, ?_, by rfl, ?_⟩
  · intro s h
    unfold SensorFactory.create_sensor
    rw [if_pos h]
  · intro s hne hnotin
    unfold SensorFactory.create_sensor
    rw [if_neg hne]
    have hfind : sensorRegistry.find?
        (fun p => p.1.data = pyLower (pyStrip s.data)) = none := by
      rw [List.find?_eq_none]
      intro a ha hpa
      exact hnotin (List.mem_map.mpr ⟨a, ha, by simpa using hpa⟩)
    simp only [hfind]
    rfl
  · intro s sens h
    simp only [SensorFactory.create_sensor] at h
    by_cases hs : pyStrip s.data = []
    · rw [if_pos hs] at h
      exact absurd h (by simp)
    · rw [if_neg hs] at h
      cases hf : sensorRegistry.find?
          (fun p => p.1.data = pyLower (pyStrip s.data)) with
      | none => rw [hf] at h; simp at h
      | some p =>
        rw [hf] at h
        have := Except.ok.inj h
        rw [← this, construct_uncalibrated]

/-- C8 witness: an all-whitespace name fails with InvalidInput. -/
theorem create_sensor_spec_witness :
    SensorFactory.create_sensor "  " = .error .invalidInput :=
  create_sensor_spec.2.2.2.1 "  " (by decide)

/-- C9 (counterexample): the claim says a stream exhaustion is handled
by substituting 0.0 AND reporting the fault to the logging
collaborator; in the code the `StopIteration` handler returns 0.0
silently (only the catch-all handler for a malformed value prints).
On a calibrated sensor the exhaustion outcome yields reading 0 with the
fault-reported flag false. -/
theorem safe_read_stop_silent_cex :
    Sensor.read_data ⟨"Temperature", SensorType.temperature, true⟩
        NextOutcome.stop = .ok (0, false) ∧
    Sensor.read_data ⟨"Temperature", SensorType.temperature, true⟩
        NextOutcome.stop ≠ .ok (0, true) := by
  constructor
  · rfl
  · simp [Sensor.read_data, Sensor.safe_read]

/-- C9 (amended): for every calibrated sensor, `read_data` never fails:
it returns a reading that lies in [0, 100) whenever the stream's
numeric values lie in [0, 100) (per the spec, `random.uniform(0, 100)`
draws); a malformed value is replaced by the safe default 0.0 with the
fault reported to the logging collaborator, while a stream exhaustion
is replaced by 0.0 silently (no report). -/
theorem read_data_fail_soft :
    (∀ (s : Sensor) (o : NextOutcome), s.calibrated = true →
       ∃ r : ℝ × Bool, s.read_data o = .ok r ∧
         ((∀ x : ℝ, o = .ok x → 0 ≤ x ∧ x < 100) →
           0 ≤ r.1 ∧ r.1 < 100)) ∧
    (∀ s : Sensor, s.calibrated = true →
       s.read_data NextOutcome.invalid = .ok (0, true)) ∧
    (∀ s : Sensor, s.calibrated = true →
       s.read_data NextOutcome.stop = .ok (0, false)) := by
  refine ⟨?_, ?_, ?_⟩
  · intro s o hc
    refine ⟨Sensor.safe_read o, by simp [Sensor.read_data, hc], ?_⟩
    intro hrange
    cases o with
    | ok x => simpa [Sensor.safe_read] using hrange x rfl
    | invalid => norm_num [Sensor.safe_read]
    | stop => norm_num [Sensor.safe_read]
  · intro s hc
    simp [Sensor.read_data, Sensor.safe_read, hc]
  · intro s hc
    simp [Sensor.read_data, Sensor.safe_read, hc]

/-- C9 witness: a calibrated temperature sensor hitting a malformed
stream value reads 0 and reports the fault. -/
theorem read_data_fail_soft_witness :
    Sensor.read_data ⟨"Temperature", SensorType.temperature, true⟩
      NextOutcome.invalid = .ok (0, true) :=
  read_data_fail_soft.2.1 ⟨"Temperature", SensorType.temperature, true⟩ rfl

lemma dictFold_append (pairs : List (String × ℝ)) :
    ∀ acc : List (String × ℝ),
      (pairs.map Prod.fst).Nodup →
      (∀ q ∈ pairs, ∀ p ∈ acc, p.1 ≠ q.1) →
      pairs.foldl (fun d p => dictInsert d p.1 p.2) acc = acc ++ pairs := by
  induction pairs with
  | nil => intro acc _ _; simp
  | cons q rest ih =>
    intro acc hnd hdisj
    have hnotin : ¬ acc.any (fun p => p.1 = q.1) = true := by
      intro hany
      obtain ⟨p, hp, hpq⟩ := List.any_eq_true.mp hany
      exact hdisj q (List.mem_cons_self q rest) p hp (by simpa using hpq)
    have hins : dictInsert acc q.1 q.2 = acc ++ [q] := by
      rw [dictInsert, if_neg hnotin]
    have hnd2 : (q.1 :: rest.map Prod.fst).Nodup := by simpa using hnd
    have hnd' : (rest.map Prod.fst).Nodup := hnd2.of_cons
    have hhead : q.1 ∉ rest.map Prod.fst := (List.nodup_cons.mp hnd2).1
    have hdisj' : ∀ r ∈ rest, ∀ p ∈ acc ++ [q], p.1 ≠ r.1 := by
      intro r hr p hp
      rcases List.mem_append.mp hp with hp | hp
      · exact hdisj r (List.mem_cons_of_mem q hr) p hp
      · have : p = q := by simpa using hp
        subst this
        intro hq
        exact hhead (hq ▸ List.mem_map_of_mem Prod.fst hr)
    simp only [List.foldl_cons]
    rw [hins, ih (acc ++ [q]) hnd' hdisj', List.append_assoc]
    rfl

lemma dictOfPairs_nodup (pairs : List (String × ℝ))
    (h : (pairs.map Prod.fst).Nodup) : dictOfPairs pairs = pairs := by
  rw [dictOfPairs, dictFold_append pairs [] h (by simp), List.nil_append]

lemma keys_dictInsert_superset (d : List (String × ℝ)) (k : String)
    (v : ℝ) : ∀ k', k' ∈ d.map Prod.fst ∨ k' = k →
      k' ∈ (dictInsert d k v).map Prod.fst := by
  intro k' h
  rw [dictInsert]
  by_cases hc : d.any (fun p => p.1 = k) = true
  · rw [if_pos hc]
    have hkeys : (d.map (fun p => if p.1 = k then (p.1, v) else p)).map
        Prod.fst = d.map Prod.fst := by
      rw [List.map_map]
      refine List.map_congr_left ?_
      intro p _
      by_cases hp : p.1 = k <;> simp [hp]
    rw [hkeys]
    rcases h with h | rfl
    · exact h
    · obtain ⟨p, hp, hpk⟩ := List.any_eq_true.mp hc
      exact List.mem_map.mpr ⟨p, hp, by simpa using hpk⟩
  · rw [if_neg hc, List.map_append]
    rcases h with h | rfl
    · exact List.mem_append_left _ h
    · apply List.mem_append_right
      simp

lemma mem_keys_dictFold (pairs : List (String × ℝ)) :
    ∀ (acc : List (String × ℝ)) (k' : String),
      k' ∈ acc.map Prod.fst ∨ k' ∈ pairs.map Prod.fst →
      k' ∈ ((pairs.foldl (fun d p => dictInsert d p.1 p.2) acc).map
        Prod.fst) := by
  induction pairs with
  | nil =>
    intro acc k' h
    rcases h with h | h
    · simpa using h
    · simp at h
  | cons q rest ih =>
    intro acc k' h
    simp only [List.foldl_cons]
    apply ih
    rcases h with h | h
    · exact Or.inl (keys_dictInsert_superset acc q.1 q.2 k' (Or.inl h))
    · simp only [List.map_cons, List.mem_cons] at h
      rcases h with hk | h
      · exact Or.inl (keys_dictInsert_superset acc q.1 q.2 k' (Or.inr hk))
      · exact Or.inr h

lemma mem_keys_dictOfPairs (pairs : List (String × ℝ)) (k : String)
    (h : k ∈ pairs.map Prod.fst) :
    k ∈ (dictOfPairs pairs).map Prod.fst :=
  mem_keys_dictFold pairs [] k (Or.inr h)

/-- C4 (counterexample): the snapshot does NOT contain one reading per
source for every source list: `build_sensors` cycles through three type
names, so with four sensors two share the name "Temperature" and the
dict comprehension collapses them — the snapshot has 3 entries for 4
sources. -/
theorem collect_once_duplicate_names_cex :
    build_sensors 4 = .ok
      [⟨"Temperature", .temperature, true⟩, ⟨"Pressure", .pressure, true⟩,
       ⟨"Vibration", .vibration, true⟩,
       ⟨"Temperature", .temperature, true⟩] ∧
    (collect_once
        [⟨"Temperature", .temperature, true⟩, ⟨"Pressure", .pressure, true⟩,
         ⟨"Vibration", .vibration, true⟩,
         ⟨"Temperature", .temperature, true⟩]
        (fun _ => 0) id).length = 3 := by
  constructor
  · rfl
  · rfl

/-- C4 (amended): for every source list whose names are pairwise
distinct, and for every completion order of the concurrent reads
(`rank`), `collect_once` returns a snapshot with exactly one reading
per source, keyed by the source's name, with keys in original
source-list order: the snapshot is exactly the name list zipped with
the task-order results. -/
theorem collect_once_snapshot_order (sensors : List Sensor)
    (stream : ℕ → ℝ) (rank : ℕ → ℕ)
    (hnd : (sensors.map Sensor.name).Nodup) :
    collect_once sensors stream rank =
      (sensors.map Sensor.name).zip
        ((List.range sensors.length).map fun i => stream (rank i)) := by
  simp only [collect_once, read_sensor]
  set results := (List.range sensors.length).map fun i => stream (rank i)
    with hres
  have hlen : results.length = sensors.length := by simp [hres]
  have hzip : (sensors.zip results).map
      (fun p => (p.1.name, p.2)) = (sensors.map Sensor.name).zip results := by
    rw [List.zip_map_left]
    refine List.map_congr_left ?_
    intro p _
    cases p
    rfl
  rw [hzip]
  apply dictOfPairs_nodup
  rw [List.map_fst_zip]
  · exact hnd
  · rw [List.length_map]
    exact hlen.symm.le

/-- C4 witness: two distinctly named sensors, constant stream value 5,
identity completion order: the snapshot is the name list zipped with
the results, in source order. -/
theorem collect_once_snapshot_order_witness :
    collect_once
        [⟨"Temperature", SensorType.temperature, true⟩,
         ⟨"Pressure", SensorType.pressure, true⟩]
        (fun _ => (5 : ℝ)) id =
      [("Temperature", (5 : ℝ)), ("Pressure", (5 : ℝ))] :=
  collect_once_snapshot_order
    [⟨"Temperature", SensorType.temperature, true⟩,
     ⟨"Pressure", SensorType.pressure, true⟩]
    (fun _ => (5 : ℝ)) id (by decide)

/-- C5 (counterexample): inside `collect_once` an uncalibrated source's
read does NOT fail with NotCalibrated: `read_sensor` never consults the
calibration flag, so the uncalibrated sensor's reading is collected
into the snapshot like any other (while `Sensor.read_data`, which
`collect_once` never calls, would fail). -/
theorem collect_once_uncalibrated_cex :
    read_sensor ⟨"Temperature", SensorType.temperature, false⟩ 7 = 7 ∧
    collect_once [⟨"Temperature", SensorType.temperature, false⟩]
        (fun _ => (7 : ℝ)) id = [("Temperature", 7)] ∧
    Sensor.read_data ⟨"Temperature", SensorType.temperature, false⟩
        (NextOutcome.ok 7) = .error .notCalibrated := by
  exact ⟨rfl, rfl, rfl⟩

/-- C5 (amended): `collect_once` performs no calibration check:
`read_sensor` returns the shared-stream value for every source
regardless of its calibration flag (it can never raise NotCalibrated),
every source's name appears as a key of the produced snapshot whatever
the calibration states and completion order, and NotCalibrated arises
only from `Sensor.read_data` — which `collect_once` does not invoke —
on an uncalibrated sensor. -/
theorem collect_once_no_calibration_check :
    (∀ (s : Sensor) (v : ℝ), read_sensor s v = v) ∧
    (∀ (sensors : List Sensor) (stream : ℕ → ℝ) (rank : ℕ → ℕ),
       ∀ s ∈ sensors,
         s.name ∈ (collect_once sensors stream rank).map Prod.fst) ∧
    (∀ (s : Sensor) (o : NextOutcome), s.calibrated = false →
       s.read_data o = .error .notCalibrated) := by
  refine ⟨fun s v => rfl, ?_, ?_⟩
  · intro sensors stream rank s hs
    simp only [collect_once, read_sensor]
    apply mem_keys_dictOfPairs
    set results := (List.range sensors.length).map fun i => stream (rank i)
      with hres
    have hlen : results.length = sensors.length := by simp [hres]
    have hkeys : ((sensors.zip results).map
        (fun p => (p.1.name, p.2))).map Prod.fst = sensors.map Sensor.name := by
      rw [List.map_map]
      have hfst : (sensors.zip results).map Prod.fst = sensors :=
        List.map_fst_zip sensors results hlen.symm.le
      calc (sensors.zip results).map (Prod.fst ∘ fun p => (p.1.name, p.2))
          = ((sensors.zip results).map Prod.fst).map Sensor.name := by
            rw [List.map_map]
            rfl
        _ = sensors.map Sensor.name := by rw [hfst]
    rw [hkeys]
    exact List.mem_map_of_mem Sensor.name hs
  · intro s o hc
    simp [Sensor.read_data, hc]

/-- C5 witness: a single uncalibrated sensor still contributes its
key to the snapshot, and its `read_data` (unused by the engine) fails. -/
theorem collect_once_no_calibration_check_witness :
    "Pressure" ∈ (collect_once
        [⟨"Pressure", SensorType.pressure, false⟩]
        (fun _ => (3 : ℝ)) id).map Prod.fst ∧
    Sensor.read_data ⟨"Pressure", SensorType.pressure, false⟩
        NextOutcome.stop = .error .notCalibrated :=
  ⟨collect_once_no_calibration_check.2.1
      [⟨"Pressure", SensorType.pressure, false⟩] (fun _ => (3 : ℝ)) id
      ⟨"Pressure", SensorType.pressure, false⟩ (by simp),
   collect_once_no_calibration_check.2.2
      ⟨"Pressure", SensorType.pressure, false⟩ NextOutcome.stop rfl⟩
